import Mathlib

/-!
# RailStream telemetry engine — verification development

Shallow embedding of the stateful telemetry simulation engine of the
RailStream repository (`depot-agent/src/trainSimulator.js` together with its
station data in `trainData.js`), and proofs of the spec's testable
properties about it.

Modelling conventions:
* JavaScript numbers become exact rationals (`ℚ`); `Math.round` is the
  round-half-up function, which coincides with Mathlib's `round`
  (`round x = ⌊x + 1/2⌋`).
* Every call of the random source `Math.random()` becomes an explicit `ℚ`
  parameter; a draw is *valid* when it lies in `[0, 1)`.  A tick therefore
  becomes a pure function of the previous state and a record of draws.
* JavaScript's `array[i]` (which may be `undefined`) becomes `List.get?`
  where the possible absence matters, and `List.getD` with the empty-string
  default where the source always indexes in bounds.
-/

namespace RailStream

/-- JS `Math.round(q * 10) / 10` — round to one decimal place. -/
def round10 (q : ℚ) : ℚ := (round (q * 10) : ℤ) / 10

/-- JS `Math.round(q * 100) / 100` — round to two decimal places. -/
def round100 (q : ℚ) : ℚ := (round (q * 100) : ℤ) / 100

/-- `rand(min, max)` from trainSimulator.js: `Math.random() * (max - min) + min`,
with the `Math.random()` output `u` made explicit. -/
def rand (mn mx u : ℚ) : ℚ := u * (mx - mn) + mn

/-- `randInt(min, max)` from trainSimulator.js: `Math.floor(rand(min, max + 1))`. -/
def randInt (mn mx : ℤ) (u : ℚ) : ℤ := ⌊rand mn (mx + 1) u⌋

/-- `clamp(value, min, max)` from trainSimulator.js:
`Math.min(Math.max(value, min), max)`. -/
def clamp (v mn mx : ℚ) : ℚ := min (max v mn) mx

/-- Total of the weights: `Object.values(weights).reduce((a, b) => a + b, 0)`. -/
def totalWeight {α : Type} (ws : List (α × ℚ)) : ℚ :=
  (ws.map Prod.snd).foldl (· + ·) 0

/-- The subtraction loop of `weightedPick`: starting from the scaled draw `r`,
subtract each weight in iteration order and return the first key whose
remainder is `≤ 0`. -/
def weightedPickGo {α : Type} : ℚ → List (α × ℚ) → Option α
  | _, [] => none
  | r, (k, w) :: rest => if r - w ≤ 0 then some k else weightedPickGo (r - w) rest

/-- `weightedPick(weights)` from trainSimulator.js, with the uniform draw `u`
made explicit: scale `u` by the total weight, run the subtraction loop, and
fall back to the first key (`Object.keys(weights)[0]`) when no entry fires. -/
def weightedPick {α : Type} (ws : List (α × ℚ)) (u : ℚ) : Option α :=
  match weightedPickGo (u * totalWeight ws) ws with
  | some k => some k
  | none => ws.head?.map Prod.fst

-- ── Enumerations of the data model ──

/-- Train operational status. -/
inductive Status
  | IN_SERVICE | STANDBY | IN_DEPOT | MAINTENANCE | FAULT
  deriving DecidableEq, Repr

/-- Motion phase of the speed state machine. -/
inductive Phase
  | DWELL | ACCEL | CRUISE | BRAKE
  deriving DecidableEq, Repr

/-- Discrete health state of a component or point machine. -/
inductive CompState
  | NORMAL | WARNING | FAULT
  deriving DecidableEq, Repr

/-- Alert severity. -/
inductive Severity
  | LOW | MEDIUM | HIGH | CRITICAL
  deriving DecidableEq, Repr

/-- Point-machine blade position. -/
inductive PMPosition
  | NORMAL | REVERSE | INTERMEDIATE
  deriving DecidableEq, Repr

/-- `STATUS_WEIGHTS` from trainSimulator.js. -/
def STATUS_WEIGHTS : List (Status × ℚ) :=
  [(.IN_SERVICE, 0.55), (.STANDBY, 0.20), (.IN_DEPOT, 0.15),
   (.MAINTENANCE, 0.07), (.FAULT, 0.03)]

/-- `COMPONENT_STATE` weights from trainSimulator.js. -/
def COMPONENT_STATE : List (CompState × ℚ) :=
  [(.NORMAL, 0.88), (.WARNING, 0.09), (.FAULT, 0.03)]

/-- `weightedPick(STATUS_WEIGHTS)`; the fallback default of `getD` is
unreachable because the list is nonempty. -/
def pickStatus (u : ℚ) : Status :=
  (weightedPick STATUS_WEIGHTS u).getD .IN_SERVICE

/-- `weightedPick(COMPONENT_STATE)`. -/
def pickCompState (u : ℚ) : CompState :=
  (weightedPick COMPONENT_STATE u).getD .NORMAL

/-- Alert value: `{code, severity, message}`. -/
structure Alert where
  code : String
  severity : Severity
  message : String
  deriving DecidableEq, Repr

-- ── Vehicle components ──

/-- `components.doors`: discrete state and list of cars with faulty doors. -/
structure Doors where
  state : CompState
  faultCars : List ℤ
  deriving DecidableEq, Repr

/-- `components.brakes`: discrete state and brake pressure. -/
structure Brakes where
  state : CompState
  pressure : ℚ
  deriving DecidableEq, Repr

/-- `components.hvac`: discrete state and cabin temperature. -/
structure Hvac where
  state : CompState
  cabinTemp : ℚ
  deriving DecidableEq, Repr

/-- `components.powerRail`: discrete state only. -/
structure PowerRail where
  state : CompState
  deriving DecidableEq, Repr

/-- `components.traction`: discrete state and motor temperature. -/
structure Traction where
  state : CompState
  motorTemp : ℚ
  deriving DecidableEq, Repr

/-- `components.battery`: discrete state and voltage. -/
structure Battery where
  state : CompState
  voltage : ℚ
  deriving DecidableEq, Repr

/-- `components.cctv`: discrete state and number of active cameras. -/
structure Cctv where
  state : CompState
  activeCams : ℤ
  deriving DecidableEq, Repr

/-- The seven vehicle subsystems, in the object-literal order of the source. -/
structure Components where
  doors : Doors
  brakes : Brakes
  hvac : Hvac
  powerRail : PowerRail
  traction : Traction
  battery : Battery
  cctv : Cctv
  deriving DecidableEq, Repr

/-- Per-train mutable state (`trainStates[trainId]` in trainSimulator.js). -/
structure TrainState where
  status : Status
  speed : ℚ
  currentStation : String
  stationIndex : ℤ
  direction : ℤ
  odometer : ℚ
  lastMaintenanceKm : ℚ
  phase : Phase
  dwellTimer : ℤ
  segProgress : ℚ
  components : Components
  alerts : List Alert
  line : String
  stations : List String
  deriving DecidableEq, Repr

-- ── Random draws consumed by one vehicle tick ──

/-- One `Math.random()` output per call site of `updateTrain` /
`updateTrainSpeed`, in source order.  Fields whose call site is not reached
on a given tick are simply unused. -/
structure TickDraws where
  /-- `Math.random() < 0.03` roll deciding a status resample. -/
  statusRoll : ℚ
  /-- draw for `weightedPick(STATUS_WEIGHTS)` on a resample. -/
  statusPickU : ℚ
  /-- draw for `randInt(8, 20)` when entering service. -/
  statusDwellU : ℚ
  /-- draw for `ACCEL_RATE = rand(6, 9)`. -/
  accelU : ℚ
  /-- draw for `BRAKE_RATE = rand(9, 13)`. -/
  brakeU : ℚ
  /-- draw for `rand(-2, 2)` in the CRUISE branch. -/
  cruiseU : ℚ
  /-- draw for `randInt(8, 20)` on arrival at a station. -/
  dwellU : ℚ
  /-- draw for `rand(-3, 0)` in the STANDBY branch. -/
  standbyU : ℚ
  /-- draw for `randInt(8, 20)` in the STANDBY branch. -/
  standbyDwellU : ℚ
  /-- draw for `randInt(8, 20)` in the non-IN_SERVICE branch. -/
  elseDwellU : ℚ
  doorsStayU : ℚ
  doorsPickU : ℚ
  doorsCarU : ℚ
  brakesStayU : ℚ
  brakesPickU : ℚ
  brakesDeltaU : ℚ
  hvacStayU : ℚ
  hvacPickU : ℚ
  hvacDeltaU : ℚ
  powerStayU : ℚ
  powerPickU : ℚ
  tractionStayU : ℚ
  tractionPickU : ℚ
  tractionDeltaU : ℚ
  batteryStayU : ℚ
  batteryPickU : ℚ
  batteryDeltaU : ℚ
  cctvStayU : ℚ
  cctvPickU : ℚ
  cctvCamsU : ℚ

/-- A draw is valid when it lies in the image of `Math.random()`. -/
def unit01 (u : ℚ) : Prop := 0 ≤ u ∧ u < 1

instance : DecidablePred unit01 := fun u => by unfold unit01; infer_instance

/-- All draws of a tick are valid `Math.random()` outputs. -/
def DrawsOk (d : TickDraws) : Prop :=
  unit01 d.statusRoll ∧ unit01 d.statusPickU ∧ unit01 d.statusDwellU ∧
  unit01 d.accelU ∧ unit01 d.brakeU ∧ unit01 d.cruiseU ∧ unit01 d.dwellU ∧
  unit01 d.standbyU ∧ unit01 d.standbyDwellU ∧ unit01 d.elseDwellU ∧
  unit01 d.doorsStayU ∧ unit01 d.doorsPickU ∧ unit01 d.doorsCarU ∧
  unit01 d.brakesStayU ∧ unit01 d.brakesPickU ∧ unit01 d.brakesDeltaU ∧
  unit01 d.hvacStayU ∧ unit01 d.hvacPickU ∧ unit01 d.hvacDeltaU ∧
  unit01 d.powerStayU ∧ unit01 d.powerPickU ∧
  unit01 d.tractionStayU ∧ unit01 d.tractionPickU ∧ unit01 d.tractionDeltaU ∧
  unit01 d.batteryStayU ∧ unit01 d.batteryPickU ∧ unit01 d.batteryDeltaU ∧
  unit01 d.cctvStayU ∧ unit01 d.cctvPickU ∧ unit01 d.cctvCamsU

instance (d : TickDraws) : Decidable (DrawsOk d) := by unfold DrawsOk; infer_instance

-- ── Speed state machine (`updateTrainSpeed`) ──

/-- `updateTrainSpeed(s)` from trainSimulator.js.  The JS mutation sequence is
rendered as one functional update per branch; the final
`s.speed = Math.round(s.speed * 10) / 10` is applied to every branch's
result, exactly as in the source. -/
def updateTrainSpeed (s : TrainState) (d : TickDraws) : TrainState :=
  let ACCEL_RATE := rand 6 9 d.accelU
  let BRAKE_RATE := rand 9 13 d.brakeU
  let MAX_SPEED : ℚ := 80
  let s1 :=
    match s.phase with
    | .DWELL =>
      let t := s.dwellTimer - 1
      if t ≤ 0 then
        { s with speed := 0, dwellTimer := t, phase := .ACCEL, segProgress := 0 }
      else
        { s with speed := 0, dwellTimer := t }
    | .ACCEL =>
      let sp := clamp (s.speed + ACCEL_RATE) 0 MAX_SPEED
      let sg := s.segProgress + sp / 1200
      -- both `if` statements of the source run in order; the second wins
      let ph := if sg ≥ 0.68 then Phase.BRAKE
                else if sp ≥ MAX_SPEED * 0.92 then Phase.CRUISE
                else Phase.ACCEL
      { s with speed := sp, segProgress := sg, phase := ph }
    | .CRUISE =>
      let sp := clamp (s.speed + rand (-2) 2 d.cruiseU) (MAX_SPEED * 0.88) MAX_SPEED
      let sg := s.segProgress + sp / 1200
      let ph := if sg ≥ 0.68 then Phase.BRAKE else Phase.CRUISE
      { s with speed := sp, segProgress := sg, phase := ph }
    | .BRAKE =>
      let sp := clamp (s.speed - BRAKE_RATE) 0 MAX_SPEED
      if sp ≤ 0 then
        -- arrived: advance to the next station with a reflecting boundary
        let idx := s.stationIndex + s.direction
        if idx ≥ (s.stations.length : ℤ) then
          { s with speed := sp, stationIndex := (s.stations.length : ℤ) - 2,
                   direction := -1,
                   currentStation := s.stations.getD ((s.stations.length : ℤ) - 2).toNat "",
                   phase := .DWELL, dwellTimer := randInt 8 20 d.dwellU,
                   segProgress := 0 }
        else if idx < 0 then
          { s with speed := sp, stationIndex := 1, direction := 1,
                   currentStation := s.stations.getD 1 "",
                   phase := .DWELL, dwellTimer := randInt 8 20 d.dwellU,
                   segProgress := 0 }
        else
          { s with speed := sp, stationIndex := idx,
                   currentStation := s.stations.getD idx.toNat "",
                   phase := .DWELL, dwellTimer := randInt 8 20 d.dwellU,
                   segProgress := 0 }
      else
        { s with speed := sp, segProgress := s.segProgress + max sp 0 / 1200 }
  { s1 with speed := round10 s1.speed }

-- ── Tick stages of `updateTrain` ──

/-- The operational-status step of `updateTrain`: with a 3% roll, resample
the status; entering service restarts at a station; any non-IN_SERVICE
result zeroes the speed and forces DWELL. -/
def applyStatus (s : TrainState) (d : TickDraws) : TrainState :=
  if d.statusRoll < 0.03 then
    let prev := s.status
    let st := pickStatus d.statusPickU
    let s1 := { s with status := st }
    let s2 :=
      if st = Status.IN_SERVICE ∧ prev ≠ Status.IN_SERVICE then
        { s1 with phase := .DWELL, dwellTimer := randInt 8 20 d.statusDwellU,
                  segProgress := 0, speed := 0 }
      else s1
    if st ≠ Status.IN_SERVICE then { s2 with speed := 0, phase := .DWELL } else s2
  else s

/-- The speed / station-progression step of `updateTrain`. -/
def applyMotion (s : TrainState) (d : TickDraws) : TrainState :=
  match s.status with
  | .IN_SERVICE => updateTrainSpeed s d
  | .STANDBY =>
    { s with speed := round10 (clamp (s.speed + rand (-3) 0 d.standbyU) 0 15),
             phase := .DWELL, dwellTimer := randInt 8 20 d.standbyDwellU,
             segProgress := 0 }
  | _ =>
    { s with speed := 0, phase := .DWELL, dwellTimer := randInt 8 20 d.elseDwellU,
             segProgress := 0 }

/-- The odometer step of `updateTrain`:
`if (s.speed > 0) s.odometer += Math.round(s.speed / 1200 * 100) / 100`. -/
def applyOdometer (s : TrainState) : TrainState :=
  if s.speed > 0 then { s with odometer := s.odometer + round100 (s.speed / 1200) }
  else s

/-- `evolveComponentState(current)`: 95% chance to stay, otherwise resample. -/
def evolveComponentState (cur : CompState) (stayU pickU : ℚ) : CompState :=
  if stayU < 0.95 then cur else pickCompState pickU

/-- Doors section of `updateTrain`: evolved component plus alerts pushed. -/
def evolveDoors (x : Doors) (stayU pickU carU : ℚ) : Doors × List Alert :=
  let st := evolveComponentState x.state stayU pickU
  if st = CompState.FAULT then
    let car := randInt 1 6 carU
    (⟨st, [car]⟩,
     [⟨"DOOR_FAULT", .HIGH, "Door fault on Car " ++ toString car⟩])
  else (⟨st, []⟩, [])

/-- Brakes section of `updateTrain`. -/
def evolveBrakes (x : Brakes) (stayU pickU deltaU : ℚ) : Brakes × List Alert :=
  let st := evolveComponentState x.state stayU pickU
  let p := round10 (clamp (x.pressure + rand (-2) 2 deltaU)
                          (if st = CompState.FAULT then 55 else 80) 100)
  (⟨st, p⟩,
   if st = CompState.FAULT then
     [⟨"BRAKE_FAULT", .CRITICAL, "Brake pressure below threshold"⟩]
   else if st = CompState.WARNING then
     [⟨"BRAKE_WARN", .MEDIUM, "Brake pressure at " ++ toString p ++ "%"⟩]
   else [])

/-- HVAC section of `updateTrain`. -/
def evolveHvac (x : Hvac) (stayU pickU deltaU : ℚ) : Hvac × List Alert :=
  let st := evolveComponentState x.state stayU pickU
  let t := round10 (clamp (x.cabinTemp + rand (-0.5) 0.5 deltaU)
                          (if st = CompState.FAULT then 30 else 20)
                          (if st = CompState.FAULT then 38 else 27))
  (⟨st, t⟩,
   if st = CompState.FAULT then
     [⟨"HVAC_FAULT", .MEDIUM, "Cabin temperature " ++ toString t ++ "°C"⟩]
   else [])

/-- Power-rail section of `updateTrain`. -/
def evolvePowerRail (x : PowerRail) (stayU pickU : ℚ) : PowerRail × List Alert :=
  let st := evolveComponentState x.state stayU pickU
  (⟨st⟩,
   if st = CompState.FAULT then
     [⟨"POWER_FAULT", .CRITICAL, "Third rail power loss detected"⟩]
   else [])

/-- Traction section of `updateTrain`; the motor temperature is rounded to an
integer and the overheat alert fires on the measurement alone. -/
def evolveTraction (x : Traction) (stayU pickU deltaU : ℚ) : Traction × List Alert :=
  let st := evolveComponentState x.state stayU pickU
  let mt : ℚ := (round (clamp (x.motorTemp + rand (-2) 3 deltaU) 40
                              (if st = CompState.FAULT then 140 else 110)) : ℤ)
  (⟨st, mt⟩,
   if mt > 120 then
     [⟨"TRACTION_OVERHEAT", .HIGH, "Motor temp " ++ toString mt ++ "°C"⟩]
   else [])

/-- Battery section of `updateTrain`; the low-voltage alert fires on the
measurement alone. -/
def evolveBattery (x : Battery) (stayU pickU deltaU : ℚ) : Battery × List Alert :=
  let st := evolveComponentState x.state stayU pickU
  let v := round10 (clamp (x.voltage + rand (-0.2) 0.2 deltaU)
                          (if st = CompState.FAULT then 65 else 72) 80)
  (⟨st, v⟩,
   if v < 72 then
     [⟨"BATTERY_LOW", .MEDIUM, "Battery " ++ toString v ++ "V"⟩]
   else [])

/-- CCTV section of `updateTrain`. -/
def evolveCctv (x : Cctv) (stayU pickU camsU : ℚ) : Cctv × List Alert :=
  let st := evolveComponentState x.state stayU pickU
  let cams := if st = CompState.FAULT then randInt 16 22 camsU else 24
  (⟨st, cams⟩,
   if st = CompState.FAULT then
     [⟨"CCTV_PARTIAL", .LOW, toString (24 - cams) ++ " camera(s) offline"⟩]
   else [])

/-- Maintenance check at the end of `updateTrain`: a LOW alert whenever
`odometer - lastMaintenanceKm` exceeds 40,000 km. -/
def maintenanceAlerts (s : TrainState) : List Alert :=
  let kmSinceMaint := s.odometer - s.lastMaintenanceKm
  if kmSinceMaint > 40000 then
    [⟨"SCHEDULED_MAINTENANCE", .LOW,
      "Scheduled maintenance due (" ++ toString (round kmSinceMaint : ℤ) ++
      " km since last service)"⟩]
  else []

/-- The component-evolution step of `updateTrain`: every subsystem is evolved
in source order and the tick's alert list (component alerts in push order,
then the maintenance alert) replaces `s.alerts`. -/
def applyComponents (s : TrainState) (d : TickDraws) : TrainState :=
  let doors := evolveDoors s.components.doors d.doorsStayU d.doorsPickU d.doorsCarU
  let brakes := evolveBrakes s.components.brakes d.brakesStayU d.brakesPickU d.brakesDeltaU
  let hvac := evolveHvac s.components.hvac d.hvacStayU d.hvacPickU d.hvacDeltaU
  let power := evolvePowerRail s.components.powerRail d.powerStayU d.powerPickU
  let traction := evolveTraction s.components.traction d.tractionStayU d.tractionPickU d.tractionDeltaU
  let battery := evolveBattery s.components.battery d.batteryStayU d.batteryPickU d.batteryDeltaU
  let cctv := evolveCctv s.components.cctv d.cctvStayU d.cctvPickU d.cctvCamsU
  { s with
    components := ⟨doors.1, brakes.1, hvac.1, power.1, traction.1, battery.1, cctv.1⟩,
    alerts := doors.2 ++ brakes.2 ++ hvac.2 ++ power.2 ++ traction.2 ++ battery.2 ++
              cctv.2 ++ maintenanceAlerts s }

/-- `updateTrain(trainId)` from trainSimulator.js, as a pure function of the
train's state: status step, motion step, odometer step, then component
evolution and alert collection. -/
def updateTrain (s : TrainState) (d : TickDraws) : TrainState :=
  applyComponents (applyOdometer (applyMotion (applyStatus s d) d)) d

-- ── Health score and telemetry assembly (`getTelemetry`) ──

/-- `Object.values(s.components)` restricted to the discrete states, in the
object-literal order of the source. -/
def componentStateList (c : Components) : List CompState :=
  [c.doors.state, c.brakes.state, c.hvac.state, c.powerRail.state,
   c.traction.state, c.battery.state, c.cctv.state]

/-- `componentStates.filter((c) => c.state === "FAULT").length`. -/
def faultCount (c : Components) : ℕ :=
  (componentStateList c).count CompState.FAULT

/-- `componentStates.filter((c) => c.state === "WARNING").length`. -/
def warningCount (c : Components) : ℕ :=
  (componentStateList c).count CompState.WARNING

/-- The derived health score of `getTelemetry`:
`Math.max(0, 100 - faultCount * 20 - warnCount * 5)`. -/
def healthScore (c : Components) : ℤ :=
  max 0 (100 - (faultCount c : ℤ) * 20 - (warningCount c : ℤ) * 5)

/-- The outbound vehicle telemetry event (timestamp and the depot metadata
that is merely echoed from the arguments are omitted). -/
structure Telemetry where
  trainId : String
  status : Status
  speed : ℚ
  phase : Phase
  currentStation : String
  nextStation : Option String
  odometer : ℤ
  healthScore : ℤ
  components : Components
  alerts : List Alert
  deriving DecidableEq, Repr

/-- `getTelemetry` from trainSimulator.js, after the lazy-initialization
guard: run `updateTrain`, then assemble the event from the updated state.
Returns the updated state next to the event. -/
def getTelemetry (trainId : String) (s : TrainState) (d : TickDraws) :
    TrainState × Telemetry :=
  let s1 := updateTrain s d
  (s1,
   { trainId,
     status := s1.status,
     speed := s1.speed,
     phase := s1.phase,
     currentStation := s1.currentStation,
     nextStation :=
       if s1.phase ≠ Phase.DWELL then
         s1.stations.get?
           (max 0 (min ((s1.stations.length : ℤ) - 1)
                       (s1.stationIndex + s1.direction))).toNat
       else none,
     odometer := round s1.odometer,
     healthScore := healthScore s1.components,
     components := s1.components,
     alerts := s1.alerts })

-- ── Station data (`trainData.js`) and initial state ──

/-- `SUKHUMVIT_STATIONS` from trainData.js. -/
def SUKHUMVIT_STATIONS : List String :=
  ["Mo Chit", "Saphan Khwai", "Sena Nikhom", "Ari", "Sanam Pao",
   "Victory Monument", "Phaya Thai", "Ratchathewi", "Siam",
   "Chit Lom", "Phloen Chit", "Nana", "Asok", "Phrom Phong",
   "Thong Lo", "Ekkamai", "Phra Khanong", "On Nut", "Bang Chak",
   "Punnawithi", "Udom Suk", "Bang Na", "Bearing", "Samrong",
   "Pu Chao", "Chang Erawan", "Kheha"]

/-- `SILOM_STATIONS` from trainData.js. -/
def SILOM_STATIONS : List String :=
  ["National Stadium", "Siam", "Ratchadamri", "Sala Daeng",
   "Chong Nonsi", "Surasak", "Saphan Taksin", "Krung Thon Buri",
   "Wongwian Yai", "Pho Nimit", "Talat Phlu", "Wutthakat", "Bang Wa"]

/-- `getStationsForLine(line)` from trainData.js. -/
def getStationsForLine (line : String) : List String :=
  if line = "Silom" then SILOM_STATIONS else SUKHUMVIT_STATIONS

/-- The `Math.random()` outputs consumed by `initTrainState`, in source
order. -/
structure InitDraws where
  stationU : ℚ
  statusU : ℚ
  phaseU : ℚ
  speedU : ℚ
  dirU : ℚ
  odoU : ℚ
  maintU : ℚ
  dwellU : ℚ
  segU : ℚ
  deriving Repr

/-- All init draws are valid `Math.random()` outputs. -/
def InitDrawsOk (d : InitDraws) : Prop :=
  unit01 d.stationU ∧ unit01 d.statusU ∧ unit01 d.phaseU ∧ unit01 d.speedU ∧
  unit01 d.dirU ∧ unit01 d.odoU ∧ unit01 d.maintU ∧ unit01 d.dwellU ∧
  unit01 d.segU

instance (d : InitDraws) : Decidable (InitDrawsOk d) := by
  unfold InitDrawsOk; infer_instance

/-- The `PHASES` spread list of `initTrainState`. -/
def PHASES : List Phase := [.DWELL, .ACCEL, .CRUISE, .BRAKE]

/-- The components object built by `initTrainState`. -/
def initComponents : Components :=
  ⟨⟨.NORMAL, []⟩, ⟨.NORMAL, 100⟩, ⟨.NORMAL, 24⟩, ⟨.NORMAL⟩,
   ⟨.NORMAL, 50⟩, ⟨.NORMAL, 77.5⟩, ⟨.NORMAL, 24⟩⟩

/-- `initTrainState(trainId, line)` from trainSimulator.js, as a pure
function of the init draws. -/
def initTrainState (line : String) (d : InitDraws) : TrainState :=
  let stations := getStationsForLine line
  let stationIndex := randInt 0 ((stations.length : ℤ) - 1) d.stationU
  let status := pickStatus d.statusU
  let phase :=
    if status = Status.IN_SERVICE then PHASES.getD (randInt 0 3 d.phaseU).toNat .DWELL
    else Phase.DWELL
  { status,
    speed := if phase = Phase.CRUISE then (randInt 60 80 d.speedU : ℚ)
             else if phase = Phase.ACCEL then (randInt 10 50 d.speedU : ℚ)
             else if phase = Phase.BRAKE then (randInt 5 40 d.speedU : ℚ)
             else 0,
    currentStation := stations.getD stationIndex.toNat "",
    stationIndex,
    direction := if d.dirU > 0.5 then 1 else -1,
    odometer := (randInt 50000 500000 d.odoU : ℚ),
    lastMaintenanceKm := (randInt 0 49999 d.maintU : ℚ),
    phase,
    dwellTimer := if phase = Phase.DWELL then randInt 8 20 d.dwellU else 0,
    segProgress := if phase = Phase.DWELL then 0
                   else rand 0.05 (if phase = Phase.BRAKE then 0.95 else 0.6) d.segU,
    components := initComponents,
    alerts := [],
    line,
    stations }

/-- The states of the engine's per-train registry that can actually occur:
a lazily-initialized state followed by any number of `updateTrain` ticks,
all random draws taken from `[0, 1)`. -/
inductive Reachable : TrainState → Prop where
  | init (line : String) (d : InitDraws) (h : InitDrawsOk d) :
      Reachable (initTrainState line d)
  | step (s : TrainState) (d : TickDraws) (h : DrawsOk d) (hs : Reachable s) :
      Reachable (updateTrain s d)

-- ── Point machine engine ──

/-- `PM_STATE` weights from trainSimulator.js. -/
def PM_STATE : List (CompState × ℚ) :=
  [(.NORMAL, 0.90), (.WARNING, 0.07), (.FAULT, 0.03)]

/-- `weightedPick(PM_STATE)`. -/
def pickPMState (u : ℚ) : CompState :=
  (weightedPick PM_STATE u).getD .NORMAL

/-- `DEPOT_POINT_MACHINES` from trainSimulator.js. -/
def DEPOT_POINT_MACHINES (depotId : String) : List String :=
  if depotId = "MOC" then ["A1", "A2", "A3", "B1", "B2", "C1", "C2", "D1"]
  else if depotId = "KHU" then ["A1", "A2", "B1", "B2", "C1"]
  else if depotId = "KHA" then ["A1", "A2", "B1", "B2", "C1", "C2"]
  else []

/-- Per-device mutable state (`pmStates[pmId]`). -/
structure PMState where
  state : CompState
  motorCurrent : ℚ
  voltage : ℚ
  strokeTime : ℚ
  position : PMPosition
  opCount : ℤ
  deriving DecidableEq, Repr

/-- The `Math.random()` outputs consumed for one point machine in one sweep
of `getPointMachineTelemetry`, in source order. -/
structure PMDraws where
  /-- `Math.random() >= 0.95` roll deciding a state resample. -/
  evolveRoll : ℚ
  /-- draw for `weightedPick(PM_STATE)` on a resample. -/
  pickU : ℚ
  /-- draw for `randInt(0, 2)` added to the operation counter. -/
  opU : ℚ
  /-- draw for the motor-current delta of the taken branch. -/
  currentU : ℚ
  /-- draw for the voltage delta of the taken branch. -/
  voltU : ℚ
  /-- draw for the stroke-time delta of the taken branch. -/
  strokeU : ℚ
  /-- `Math.random() > 0.5` roll choosing NORMAL vs REVERSE position. -/
  posU : ℚ
  deriving Repr

/-- All point-machine draws are valid `Math.random()` outputs. -/
def PMDrawsOk (d : PMDraws) : Prop :=
  unit01 d.evolveRoll ∧ unit01 d.pickU ∧ unit01 d.opU ∧ unit01 d.currentU ∧
  unit01 d.voltU ∧ unit01 d.strokeU ∧ unit01 d.posU

instance (d : PMDraws) : Decidable (PMDrawsOk d) := by
  unfold PMDrawsOk; infer_instance

/-- `initPMState(pmId)` from trainSimulator.js. -/
def initPMState (currentU voltU strokeU posU opU : ℚ) : PMState :=
  { state := .NORMAL,
    motorCurrent := rand 2.0 2.8 currentU,
    voltage := (randInt 109 113 voltU : ℚ),
    strokeTime := (randInt 3100 3400 strokeU : ℚ),
    position := if posU > 0.5 then .NORMAL else .REVERSE,
    opCount := randInt 0 200 opU }

/-- One emitted point-machine record. -/
structure PMRecord where
  pmId : String
  localId : String
  depotId : String
  state : CompState
  motorCurrent : ℚ
  voltage : ℚ
  strokeTime : ℚ
  position : PMPosition
  opCount : ℤ
  alert : Option Alert
  deriving DecidableEq, Repr

/-- The body of the `ids.map` loop of `getPointMachineTelemetry`, for one
point machine with existing state `p`: evolve the state, walk the
measurements in the branch of the (possibly new) discrete state, and build
the record with its optional alert. -/
def pmTick (depotId localId : String) (p : PMState) (d : PMDraws) :
    PMState × PMRecord :=
  let pmId := depotId ++ "-PM-" ++ localId
  let st := if d.evolveRoll ≥ 0.95 then pickPMState d.pickU else p.state
  let opCount := p.opCount + randInt 0 2 d.opU
  let p1 : PMState :=
    if st = CompState.FAULT then
      { state := st,
        motorCurrent := clamp (p.motorCurrent + rand 0.5 2.0 d.currentU) 6.0 12.0,
        voltage := clamp (p.voltage + rand (-8) (-2) d.voltU) 85 110,
        strokeTime := clamp (p.strokeTime + rand 500 2000 d.strokeU) 3000 12000,
        position := .INTERMEDIATE,
        opCount }
    else if st = CompState.WARNING then
      { state := st,
        motorCurrent := clamp (p.motorCurrent + rand 0.1 0.5 d.currentU) 2.0 6.0,
        voltage := clamp (p.voltage + rand (-3) 1 d.voltU) 100 115,
        strokeTime := clamp (p.strokeTime + rand 200 800 d.strokeU) 3000 6500,
        position := if d.posU > 0.5 then .NORMAL else .REVERSE,
        opCount }
    else
      { state := st,
        motorCurrent := clamp (p.motorCurrent + rand (-0.2) 0.2 d.currentU) 1.8 3.0,
        voltage := clamp (p.voltage + rand (-1) 1 d.voltU) 108 115,
        strokeTime := clamp (p.strokeTime + rand (-100) 100 d.strokeU) 3000 3500,
        position := if d.posU > 0.5 then .NORMAL else .REVERSE,
        opCount }
  let p2 : PMState :=
    { p1 with motorCurrent := round10 p1.motorCurrent,
              voltage := (round p1.voltage : ℤ),
              strokeTime := (round p1.strokeTime : ℤ) }
  let alert : Option Alert :=
    if st = CompState.FAULT then
      some ⟨"POINT_FAULT", .CRITICAL,
            "PM " ++ localId ++ ": stuck throw (" ++ toString p2.strokeTime ++
            " ms, " ++ toString p2.motorCurrent ++ " A)"⟩
    else if st = CompState.WARNING then
      some ⟨"POINT_SLOW", .HIGH,
            "PM " ++ localId ++ ": slow operation (" ++ toString p2.strokeTime ++
            " ms)"⟩
    else none
  (p2,
   { pmId, localId, depotId,
     state := p2.state,
     motorCurrent := p2.motorCurrent,
     voltage := p2.voltage,
     strokeTime := p2.strokeTime,
     position := p2.position,
     opCount := p2.opCount,
     alert })

-- ── Concrete states and draws used in counterexamples and witnesses ──

/-- Valid init draws that start a train IN_SERVICE, in BRAKE phase, at
speed 40 with `segProgress = 0.9491`. -/
def cexInitDraws : InitDraws := ⟨0, 0, 0.8, 0.99, 0, 0, 0, 0, 0.999⟩

/-- Valid tick draws: the status roll misses the 3% resample window and
every rate draw is at the bottom of its range (brake rate 9 km/h/tick). -/
def quietDraws : TickDraws :=
  ⟨0.5, 0, 0, 0, 0, 0, 0, 0, 0, 0, 0, 0, 0, 0, 0,
   0, 0, 0, 0, 0, 0, 0, 0, 0, 0, 0, 0, 0, 0, 0⟩

/-- Three quiet ticks from the braking init state: the segment progress
accumulates 31/1200 + 22/1200 + 13/1200 on top of 0.9491 and passes 1. -/
def cexOverrunState : TrainState :=
  updateTrain (updateTrain (updateTrain
    (initTrainState "Sukhumvit" cexInitDraws) quietDraws) quietDraws) quietDraws

/-- A plain in-service train dwelling at Siam, used to instantiate witnesses. -/
def baseTrain : TrainState :=
  { status := .IN_SERVICE, speed := 0, currentStation := "Siam",
    stationIndex := 8, direction := 1, odometer := 50000,
    lastMaintenanceKm := 45000, phase := .DWELL, dwellTimer := 10,
    segProgress := 0, components := initComponents, alerts := [],
    line := "Sukhumvit", stations := SUKHUMVIT_STATIONS }

/-- The base train forced to MAINTENANCE in the middle of a cruise. -/
def maintTrain : TrainState :=
  { baseTrain with status := Status.MAINTENANCE, phase := Phase.CRUISE, speed := 75 }

/-- The base train braking at 5 km/h near the end of its segment. -/
def brakeTrain : TrainState :=
  { baseTrain with phase := Phase.BRAKE, speed := 5, segProgress := 0.9 }

/-- A point machine already in FAULT, used to instantiate witnesses. -/
def pmFaultState : PMState :=
  { state := .FAULT, motorCurrent := 7, voltage := 100, strokeTime := 5000,
    position := .INTERMEDIATE, opCount := 10 }

/-- Valid point-machine draws whose evolve roll keeps the current state. -/
def pmQuietDraws : PMDraws := ⟨0.5, 0, 0, 0, 0, 0, 0⟩

-- ── Arithmetic helper lemmas ──

lemma clamp_le (v mn mx : ℚ) : clamp v mn mx ≤ mx := min_le_right _ _

lemma le_clamp (v : ℚ) {mn mx : ℚ} (h : mn ≤ mx) : mn ≤ clamp v mn mx :=
  le_min (le_max_right _ _) h

lemma round10_nonneg {q : ℚ} (h : 0 ≤ q) : 0 ≤ round10 q := by
  unfold round10
  apply div_nonneg _ (by norm_num)
  have : (0 : ℤ) ≤ round (q * 10) := by
    rw [round_eq]
    exact Int.le_floor.mpr (by push_cast; linarith)
  exact_mod_cast this

lemma round10_le_int {q : ℚ} {m : ℤ} (h : q ≤ (m : ℚ)) : round10 q ≤ (m : ℚ) := by
  unfold round10
  rw [div_le_iff₀ (by norm_num : (0 : ℚ) < 10)]
  have h2 : round (q * 10) ≤ 10 * m := by
    rw [round_eq]
    apply Int.lt_add_one_iff.mp
    apply Int.floor_lt.mpr
    push_cast
    linarith
  calc ((round (q * 10) : ℤ) : ℚ) ≤ ((10 * m : ℤ) : ℚ) := by exact_mod_cast h2
    _ = (m : ℚ) * 10 := by push_cast; ring

lemma le_randInt {mn mx : ℤ} {u : ℚ} (h0 : 0 ≤ u) (hle : mn ≤ mx) :
    mn ≤ randInt mn mx u := by
  unfold randInt rand
  apply Int.le_floor.mpr
  have hd : (0 : ℚ) ≤ ((mx : ℚ) + 1) - (mn : ℚ) := by
    have : (mn : ℚ) ≤ (mx : ℚ) := by exact_mod_cast hle
    linarith
  have := mul_nonneg h0 hd
  push_cast
  linarith

lemma randInt_le {mn mx : ℤ} {u : ℚ} (h0 : 0 ≤ u) (h1 : u < 1) (hle : mn ≤ mx) :
    randInt mn mx u ≤ mx := by
  unfold randInt rand
  apply Int.lt_add_one_iff.mp
  apply Int.floor_lt.mpr
  have hmn : (mn : ℚ) ≤ (mx : ℚ) := by exact_mod_cast hle
  have hd : (0 : ℚ) < ((mx : ℚ) + 1) - (mn : ℚ) := by linarith
  have hmul : u * (((mx : ℚ) + 1) - (mn : ℚ)) < ((mx : ℚ) + 1) - (mn : ℚ) := by
    nlinarith
  push_cast
  linarith

-- ── Field-preservation lemmas for the tick stages ──

@[simp] lemma applyComponents_status (s : TrainState) (d : TickDraws) :
    (applyComponents s d).status = s.status := rfl

@[simp] lemma applyComponents_speed (s : TrainState) (d : TickDraws) :
    (applyComponents s d).speed = s.speed := rfl

@[simp] lemma applyComponents_phase (s : TrainState) (d : TickDraws) :
    (applyComponents s d).phase = s.phase := rfl

@[simp] lemma applyComponents_dwellTimer (s : TrainState) (d : TickDraws) :
    (applyComponents s d).dwellTimer = s.dwellTimer := rfl

@[simp] lemma applyComponents_segProgress (s : TrainState) (d : TickDraws) :
    (applyComponents s d).segProgress = s.segProgress := rfl

@[simp] lemma applyComponents_stationIndex (s : TrainState) (d : TickDraws) :
    (applyComponents s d).stationIndex = s.stationIndex := rfl

@[simp] lemma applyComponents_direction (s : TrainState) (d : TickDraws) :
    (applyComponents s d).direction = s.direction := rfl

@[simp] lemma applyComponents_stations (s : TrainState) (d : TickDraws) :
    (applyComponents s d).stations = s.stations := rfl

@[simp] lemma applyComponents_odometer (s : TrainState) (d : TickDraws) :
    (applyComponents s d).odometer = s.odometer := rfl

@[simp] lemma applyComponents_lastMaintenanceKm (s : TrainState) (d : TickDraws) :
    (applyComponents s d).lastMaintenanceKm = s.lastMaintenanceKm := rfl

@[simp] lemma applyOdometer_status (s : TrainState) :
    (applyOdometer s).status = s.status := by
  unfold applyOdometer; split <;> rfl

@[simp] lemma applyOdometer_speed (s : TrainState) :
    (applyOdometer s).speed = s.speed := by
  unfold applyOdometer; split <;> rfl

@[simp] lemma applyOdometer_phase (s : TrainState) :
    (applyOdometer s).phase = s.phase := by
  unfold applyOdometer; split <;> rfl

@[simp] lemma applyOdometer_dwellTimer (s : TrainState) :
    (applyOdometer s).dwellTimer = s.dwellTimer := by
  unfold applyOdometer; split <;> rfl

@[simp] lemma applyOdometer_segProgress (s : TrainState) :
    (applyOdometer s).segProgress = s.segProgress := by
  unfold applyOdometer; split <;> rfl

@[simp] lemma applyOdometer_stationIndex (s : TrainState) :
    (applyOdometer s).stationIndex = s.stationIndex := by
  unfold applyOdometer; split <;> rfl

@[simp] lemma applyOdometer_direction (s : TrainState) :
    (applyOdometer s).direction = s.direction := by
  unfold applyOdometer; split <;> rfl

@[simp] lemma applyOdometer_stations (s : TrainState) :
    (applyOdometer s).stations = s.stations := by
  unfold applyOdometer; split <;> rfl

@[simp] lemma applyOdometer_lastMaintenanceKm (s : TrainState) :
    (applyOdometer s).lastMaintenanceKm = s.lastMaintenanceKm := by
  unfold applyOdometer; split <;> rfl

@[simp] lemma updateTrainSpeed_status (s : TrainState) (d : TickDraws) :
    (updateTrainSpeed s d).status = s.status := by
  unfold updateTrainSpeed
  cases s.phase <;> dsimp only <;> (repeat' split) <;> rfl

@[simp] lemma updateTrainSpeed_stations (s : TrainState) (d : TickDraws) :
    (updateTrainSpeed s d).stations = s.stations := by
  unfold updateTrainSpeed
  cases s.phase <;> dsimp only <;> (repeat' split) <;> rfl

@[simp] lemma updateTrainSpeed_odometer (s : TrainState) (d : TickDraws) :
    (updateTrainSpeed s d).odometer = s.odometer := by
  unfold updateTrainSpeed
  cases s.phase <;> dsimp only <;> (repeat' split) <;> rfl

@[simp] lemma updateTrainSpeed_lastMaintenanceKm (s : TrainState) (d : TickDraws) :
    (updateTrainSpeed s d).lastMaintenanceKm = s.lastMaintenanceKm := by
  unfold updateTrainSpeed
  cases s.phase <;> dsimp only <;> (repeat' split) <;> rfl

@[simp] lemma applyMotion_status (s : TrainState) (d : TickDraws) :
    (applyMotion s d).status = s.status := by
  unfold applyMotion
  rcases hs : s.status <;> simp [hs]

@[simp] lemma applyMotion_stations (s : TrainState) (d : TickDraws) :
    (applyMotion s d).stations = s.stations := by
  unfold applyMotion
  rcases hs : s.status <;> simp [hs]

@[simp] lemma applyMotion_odometer (s : TrainState) (d : TickDraws) :
    (applyMotion s d).odometer = s.odometer := by
  unfold applyMotion
  rcases hs : s.status <;> simp [hs]

@[simp] lemma applyMotion_lastMaintenanceKm (s : TrainState) (d : TickDraws) :
    (applyMotion s d).lastMaintenanceKm = s.lastMaintenanceKm := by
  unfold applyMotion
  rcases hs : s.status <;> simp [hs]

@[simp] lemma applyStatus_stations (s : TrainState) (d : TickDraws) :
    (applyStatus s d).stations = s.stations := by
  unfold applyStatus
  dsimp only
  (repeat' split) <;> rfl

@[simp] lemma applyStatus_odometer (s : TrainState) (d : TickDraws) :
    (applyStatus s d).odometer = s.odometer := by
  unfold applyStatus
  dsimp only
  (repeat' split) <;> rfl

@[simp] lemma applyStatus_lastMaintenanceKm (s : TrainState) (d : TickDraws) :
    (applyStatus s d).lastMaintenanceKm = s.lastMaintenanceKm := by
  unfold applyStatus
  dsimp only
  (repeat' split) <;> rfl

@[simp] lemma applyStatus_stationIndex (s : TrainState) (d : TickDraws) :
    (applyStatus s d).stationIndex = s.stationIndex := by
  unfold applyStatus
  dsimp only
  (repeat' split) <;> rfl

@[simp] lemma applyStatus_direction (s : TrainState) (d : TickDraws) :
    (applyStatus s d).direction = s.direction := by
  unfold applyStatus
  dsimp only
  (repeat' split) <;> rfl

lemma updateTrain_status (s : TrainState) (d : TickDraws) :
    (updateTrain s d).status = (applyStatus s d).status := by
  unfold updateTrain
  simp

lemma updateTrain_stations (s : TrainState) (d : TickDraws) :
    (updateTrain s d).stations = s.stations := by
  unfold updateTrain
  simp

/-- Any key returned by the subtraction loop is a key of the list. -/
lemma weightedPickGo_mem {α : Type} {r : ℚ} {ws : List (α × ℚ)} {k : α}
    (h : weightedPickGo r ws = some k) : k ∈ ws.map Prod.fst := by
  induction ws generalizing r with
  | nil => simp [weightedPickGo] at h
  | cons a t ih =>
    obtain ⟨k0, w0⟩ := a
    rw [weightedPickGo] at h
    split at h
    · cases h
      simp
    · simp [ih h]

-- ── C1 ──

/-- C1: the health score emitted with the telemetry event equals
`max(0, 100 − 20×faultCount − 5×warningCount)` over the updated component
states, and it depends only on the two counts: any two component maps with
the same fault count and warning count yield the same score. -/
theorem healthScore_formula_and_invariance :
    (∀ (id : String) (s : TrainState) (d : TickDraws),
        ((getTelemetry id s d).2).healthScore =
          max 0 (100 - 20 * (faultCount (updateTrain s d).components : ℤ)
                     - 5 * (warningCount (updateTrain s d).components : ℤ))) ∧
    (∀ c c' : Components, faultCount c = faultCount c' →
        warningCount c = warningCount c' → healthScore c = healthScore c') := by
  constructor
  · intro id s d
    show healthScore (updateTrain s d).components = _
    unfold healthScore
    ring_nf
  · intro c c' hf hw
    unfold healthScore
    rw [hf, hw]

/-- Witness for C1: one doors-FAULT map and one brakes-FAULT map have equal
fault and warning counts, hence the same score. -/
theorem healthScore_formula_and_invariance_witness :
    healthScore { initComponents with doors := ⟨.FAULT, [3]⟩ } =
      healthScore { initComponents with brakes := ⟨.FAULT, 60⟩ } :=
  healthScore_formula_and_invariance.2
    { initComponents with doors := ⟨.FAULT, [3]⟩ }
    { initComponents with brakes := ⟨.FAULT, 60⟩ }
    (by with_unfolding_all decide) (by with_unfolding_all decide)

-- ── C9 ──

/-- C9: for a nonempty weight list with non-negative weights, the weighted
selector always returns one of the keys, for every value of the draw; and
whenever the subtraction loop leaves no entry with remainder ≤ 0, the
selector deterministically returns the first key. -/
theorem weightedPick_membership_and_fallback {α : Type} (ws : List (α × ℚ))
    (u : ℚ) (hne : ws ≠ []) (hw : ∀ p ∈ ws, 0 ≤ p.2) :
    (∃ k, weightedPick ws u = some k ∧ k ∈ ws.map Prod.fst) ∧
    (weightedPickGo (u * totalWeight ws) ws = none →
      weightedPick ws u = ws.head?.map Prod.fst) := by
  constructor
  · rcases hgo : weightedPickGo (u * totalWeight ws) ws with _ | k
    · rcases ws with _ | ⟨a, t⟩
      · exact absurd rfl hne
      · exact ⟨a.1, by simp [weightedPick, hgo], by simp⟩
    · exact ⟨k, by simp [weightedPick, hgo], weightedPickGo_mem hgo⟩
  · intro h
    simp [weightedPick, h]

/-- Witness for C9: with the status weight table and the out-of-range scaled
draw `u = 2`, no entry fires and the selector returns the first label. -/
theorem weightedPick_membership_and_fallback_witness :
    (∃ k, weightedPick STATUS_WEIGHTS 2 = some k ∧
          k ∈ STATUS_WEIGHTS.map Prod.fst) ∧
    (weightedPickGo ((2 : ℚ) * totalWeight STATUS_WEIGHTS) STATUS_WEIGHTS = none →
      weightedPick STATUS_WEIGHTS 2 = STATUS_WEIGHTS.head?.map Prod.fst) :=
  weightedPick_membership_and_fallback STATUS_WEIGHTS 2
    (by with_unfolding_all decide) (by with_unfolding_all decide)

-- ── C7 ──

/-- C7: in ACCEL, if after the speed update both the speed threshold
(≥ 92% of maximum) and the progress threshold (≥ 0.68) hold, the phase
becomes BRAKE, not CRUISE — the progress check runs after the speed-phase
switch; from CRUISE, progress ≥ 0.68 likewise yields BRAKE. -/
theorem progress_threshold_wins (s : TrainState) (d : TickDraws) :
    (s.phase = .ACCEL →
      80 * 0.92 ≤ clamp (s.speed + rand 6 9 d.accelU) 0 80 →
      0.68 ≤ s.segProgress + clamp (s.speed + rand 6 9 d.accelU) 0 80 / 1200 →
      (updateTrainSpeed s d).phase = .BRAKE) ∧
    (s.phase = .CRUISE →
      0.68 ≤ s.segProgress + clamp (s.speed + rand (-2) 2 d.cruiseU) (80 * 0.88) 80 / 1200 →
      (updateTrainSpeed s d).phase = .BRAKE) := by
  constructor
  · intro hp hsp hsg
    unfold updateTrainSpeed
    rw [hp]
    dsimp only
    rw [if_pos hsg]
  · intro hp hsg
    unfold updateTrainSpeed
    rw [hp]
    dsimp only
    rw [if_pos hsg]

/-- Witness for C7: dwelling base state pushed into ACCEL at speed 70 with
progress 0.65; the updated speed 76 passes 73.6 and the updated progress
passes 0.68, and the tick ends in BRAKE. -/
theorem progress_threshold_wins_witness :
    (updateTrainSpeed
      { baseTrain with phase := .ACCEL, speed := 70, segProgress := 0.65 }
      quietDraws).phase = .BRAKE :=
  (progress_threshold_wins
    { baseTrain with phase := .ACCEL, speed := 70, segProgress := 0.65 }
    quietDraws).1 rfl (by with_unfolding_all decide) (by with_unfolding_all decide)

-- ── C5 ──

/-- C5: in every emitted point-machine record, FAULT forces
position = INTERMEDIATE and exactly one CRITICAL stuck-throw alert;
WARNING carries a HIGH slow-operation alert; NORMAL carries no alert;
and INTERMEDIATE occurs only while FAULT. -/
theorem pointMachine_state_position_alerts (depotId localId : String)
    (p : PMState) (d : PMDraws) :
    ((pmTick depotId localId p d).2.state = .FAULT →
      (pmTick depotId localId p d).2.position = .INTERMEDIATE ∧
      ∃ a, (pmTick depotId localId p d).2.alert = some a ∧
           a.severity = .CRITICAL ∧ a.code = "POINT_FAULT") ∧
    ((pmTick depotId localId p d).2.state = .WARNING →
      ∃ a, (pmTick depotId localId p d).2.alert = some a ∧
           a.severity = .HIGH ∧ a.code = "POINT_SLOW") ∧
    ((pmTick depotId localId p d).2.state = .NORMAL →
      (pmTick depotId localId p d).2.alert = none) ∧
    ((pmTick depotId localId p d).2.position = .INTERMEDIATE →
      (pmTick depotId localId p d).2.state = .FAULT) := by
  unfold pmTick
  dsimp only
  (repeat' split) <;> simp_all

/-- Witness for C5: a FAULT point machine whose evolve roll keeps the state
reports INTERMEDIATE with the single CRITICAL stuck-throw alert. -/
theorem pointMachine_state_position_alerts_witness :
    (pmTick "MOC" "A1" pmFaultState pmQuietDraws).2.position = .INTERMEDIATE ∧
    ∃ a, (pmTick "MOC" "A1" pmFaultState pmQuietDraws).2.alert = some a ∧
         a.severity = .CRITICAL ∧ a.code = "POINT_FAULT" :=
  (pointMachine_state_position_alerts "MOC" "A1" pmFaultState pmQuietDraws).1
    (by with_unfolding_all decide)

-- ── C2 ──

lemma round10_mem_0_80 {v : ℚ} (h0 : 0 ≤ v) (h1 : v ≤ 80) :
    0 ≤ round10 v ∧ round10 v ≤ 80 := by
  refine ⟨round10_nonneg h0, ?_⟩
  have : round10 v ≤ ((80 : ℤ) : ℚ) := round10_le_int (by exact_mod_cast h1)
  exact_mod_cast this

lemma round10_mem_0_15 {v : ℚ} (h0 : 0 ≤ v) (h1 : v ≤ 15) :
    0 ≤ round10 v ∧ round10 v ≤ 15 := by
  refine ⟨round10_nonneg h0, ?_⟩
  have : round10 v ≤ ((15 : ℤ) : ℚ) := round10_le_int (by exact_mod_cast h1)
  exact_mod_cast this

/-- After `updateTrainSpeed` the stored speed is in `[0, 80]`, for any prior
speed and any draw values. -/
lemma updateTrainSpeed_speed_bounds (s : TrainState) (d : TickDraws) :
    0 ≤ (updateTrainSpeed s d).speed ∧ (updateTrainSpeed s d).speed ≤ 80 := by
  have h80 : ∀ v : ℚ, 0 ≤ round10 (clamp v 0 80) ∧ round10 (clamp v 0 80) ≤ 80 :=
    fun v => round10_mem_0_80 (le_clamp _ (by norm_num)) (clamp_le _ _ _)
  have hcr : ∀ v : ℚ, 0 ≤ round10 (clamp v (80 * 0.88) 80) ∧
      round10 (clamp v (80 * 0.88) 80) ≤ 80 :=
    fun v => round10_mem_0_80
      (le_trans (by norm_num) (le_clamp _ (by norm_num))) (clamp_le _ _ _)
  have hz : 0 ≤ round10 0 ∧ round10 0 ≤ 80 := round10_mem_0_80 le_rfl (by norm_num)
  unfold updateTrainSpeed
  cases s.phase
  case DWELL =>
    dsimp only
    split
    · exact hz
    · exact hz
  case ACCEL => exact h80 _
  case CRUISE => exact hcr _
  case BRAKE =>
    dsimp only
    split
    · split
      · exact h80 _
      · split
        · exact h80 _
        · exact h80 _
    · exact h80 _

/-- After the motion step the stored speed is in `[0, 80]`. -/
lemma applyMotion_speed_bounds (s : TrainState) (d : TickDraws) :
    0 ≤ (applyMotion s d).speed ∧ (applyMotion s d).speed ≤ 80 := by
  rcases hs : s.status <;> simp only [applyMotion, hs]
  case IN_SERVICE => exact updateTrainSpeed_speed_bounds s d
  case STANDBY =>
    have h := round10_mem_0_15
      (le_clamp (s.speed + rand (-3) 0 d.standbyU) (by norm_num))
      (clamp_le (s.speed + rand (-3) 0 d.standbyU) 0 15)
    exact ⟨h.1, le_trans h.2 (by norm_num)⟩
  all_goals exact ⟨le_rfl, by norm_num⟩

/-- C2: a tick keeps the speed within `[0, maximumSpeed]` with the fixed
maximum 80, for every operational status and all values of the random
draws. -/
theorem speed_bounds_tick (s : TrainState) (d : TickDraws) (hd : DrawsOk d)
    (h0 : 0 ≤ s.speed) (h1 : s.speed ≤ 80) :
    0 ≤ (updateTrain s d).speed ∧ (updateTrain s d).speed ≤ 80 := by
  have h := applyMotion_speed_bounds (applyStatus s d) d
  unfold updateTrain
  simpa using h

/-- Witness for C2: the dwelling base train stays within `[0, 80]`. -/
theorem speed_bounds_tick_witness :
    0 ≤ (updateTrain baseTrain quietDraws).speed ∧
    (updateTrain baseTrain quietDraws).speed ≤ 80 :=
  speed_bounds_tick baseTrain quietDraws (by with_unfolding_all decide)
    (by with_unfolding_all decide) (by with_unfolding_all decide)

-- ── C10 ──

/-- C10: in the assembled telemetry event, `nextStation` is `null` exactly
when the phase is DWELL; otherwise it is the station at
`stationIndex + direction` clamped into the valid index range, hence always
a station of the route. -/
theorem nextStation_null_iff_dwell (id : String) (s : TrainState)
    (d : TickDraws) (hs : s.stations ≠ []) :
    (((getTelemetry id s d).2).nextStation = none ↔
      ((getTelemetry id s d).2).phase = .DWELL) ∧
    (∀ st, ((getTelemetry id s d).2).nextStation = some st → st ∈ s.stations) ∧
    (((getTelemetry id s d).2).phase ≠ .DWELL →
      ((getTelemetry id s d).2).nextStation =
        (updateTrain s d).stations.get?
          (max 0 (min (((updateTrain s d).stations.length : ℤ) - 1)
                      ((updateTrain s d).stationIndex +
                       (updateTrain s d).direction))).toNat) := by
  have hstations : (updateTrain s d).stations = s.stations := updateTrain_stations s d
  have hlen : 0 < (updateTrain s d).stations.length := by
    rw [hstations]
    exact List.length_pos.mpr hs
  have hnext : ((getTelemetry id s d).2).nextStation =
      (if (updateTrain s d).phase ≠ Phase.DWELL then
        (updateTrain s d).stations.get?
          (max 0 (min (((updateTrain s d).stations.length : ℤ) - 1)
                      ((updateTrain s d).stationIndex +
                       (updateTrain s d).direction))).toNat
      else none) := rfl
  have hphase : ((getTelemetry id s d).2).phase = (updateTrain s d).phase := rfl
  have hmin : min (((updateTrain s d).stations.length : ℤ) - 1)
      ((updateTrain s d).stationIndex + (updateTrain s d).direction) ≤
      ((updateTrain s d).stations.length : ℤ) - 1 := min_le_left _ _
  have hidx : (max 0 (min (((updateTrain s d).stations.length : ℤ) - 1)
      ((updateTrain s d).stationIndex + (updateTrain s d).direction))).toNat <
      (updateTrain s d).stations.length := by
    omega
  obtain ⟨stx, hstx⟩ : ∃ a, (updateTrain s d).stations.get?
      (max 0 (min (((updateTrain s d).stations.length : ℤ) - 1)
                  ((updateTrain s d).stationIndex +
                   (updateTrain s d).direction))).toNat = some a := by
    rw [List.get?_eq_get hidx]
    exact ⟨_, rfl⟩
  refine ⟨?_, ?_, ?_⟩
  · rw [hnext, hphase]
    by_cases hph : (updateTrain s d).phase = Phase.DWELL
    · simp [hph]
    · rw [if_pos hph, hstx]
      simp [hph]
  · intro st hmem
    rw [hnext] at hmem
    by_cases hph : (updateTrain s d).phase = Phase.DWELL
    · simp [hph] at hmem
    · rw [if_pos hph] at hmem
      have := List.get?_mem hmem
      rwa [hstations] at this
  · intro hph
    rw [hphase] at hph
    rw [hnext, if_pos hph]

/-- Witness for C10: the base train keeps dwelling, so its event shows a
null next station. -/
theorem nextStation_null_iff_dwell_witness :
    (((getTelemetry "EMU-A1-001" baseTrain quietDraws).2).nextStation = none ↔
      ((getTelemetry "EMU-A1-001" baseTrain quietDraws).2).phase = .DWELL) ∧
    (∀ st, ((getTelemetry "EMU-A1-001" baseTrain quietDraws).2).nextStation = some st →
      st ∈ baseTrain.stations) ∧
    (((getTelemetry "EMU-A1-001" baseTrain quietDraws).2).phase ≠ .DWELL →
      ((getTelemetry "EMU-A1-001" baseTrain quietDraws).2).nextStation =
        (updateTrain baseTrain quietDraws).stations.get?
          (max 0 (min (((updateTrain baseTrain quietDraws).stations.length : ℤ) - 1)
                      ((updateTrain baseTrain quietDraws).stationIndex +
                       (updateTrain baseTrain quietDraws).direction))).toNat) :=
  nextStation_null_iff_dwell "EMU-A1-001" baseTrain quietDraws
    (by with_unfolding_all decide)

-- ── C6 ──

lemma evolveDoors_no_maint (x : Doors) (u1 u2 u3 : ℚ) :
    ∀ a ∈ (evolveDoors x u1 u2 u3).2, a.code ≠ "SCHEDULED_MAINTENANCE" := by
  unfold evolveDoors
  dsimp only
  split <;> simp

lemma evolveBrakes_no_maint (x : Brakes) (u1 u2 u3 : ℚ) :
    ∀ a ∈ (evolveBrakes x u1 u2 u3).2, a.code ≠ "SCHEDULED_MAINTENANCE" := by
  unfold evolveBrakes
  dsimp only
  (repeat' split) <;> simp

lemma evolveHvac_no_maint (x : Hvac) (u1 u2 u3 : ℚ) :
    ∀ a ∈ (evolveHvac x u1 u2 u3).2, a.code ≠ "SCHEDULED_MAINTENANCE" := by
  unfold evolveHvac
  dsimp only
  (repeat' split) <;> simp

lemma evolvePowerRail_no_maint (x : PowerRail) (u1 u2 : ℚ) :
    ∀ a ∈ (evolvePowerRail x u1 u2).2, a.code ≠ "SCHEDULED_MAINTENANCE" := by
  unfold evolvePowerRail
  dsimp only
  (repeat' split) <;> simp

lemma evolveTraction_no_maint (x : Traction) (u1 u2 u3 : ℚ) :
    ∀ a ∈ (evolveTraction x u1 u2 u3).2, a.code ≠ "SCHEDULED_MAINTENANCE" := by
  unfold evolveTraction
  dsimp only
  (repeat' split) <;> simp

lemma evolveBattery_no_maint (x : Battery) (u1 u2 u3 : ℚ) :
    ∀ a ∈ (evolveBattery x u1 u2 u3).2, a.code ≠ "SCHEDULED_MAINTENANCE" := by
  unfold evolveBattery
  dsimp only
  (repeat' split) <;> simp

lemma evolveCctv_no_maint (x : Cctv) (u1 u2 u3 : ℚ) :
    ∀ a ∈ (evolveCctv x u1 u2 u3).2, a.code ≠ "SCHEDULED_MAINTENANCE" := by
  unfold evolveCctv
  dsimp only
  (repeat' split) <;> simp

/-- The component step emits the maintenance alert exactly when the state it
is applied to has `odometer - lastMaintenanceKm > 40000`. -/
lemma applyComponents_maint_iff (x : TrainState) (dd : TickDraws) :
    ((∃ a ∈ (applyComponents x dd).alerts,
        a.code = "SCHEDULED_MAINTENANCE" ∧ a.severity = .LOW) ↔
      x.odometer - x.lastMaintenanceKm > 40000) := by
  unfold applyComponents
  dsimp only
  constructor
  · rintro ⟨a, ha, hcode, hsev⟩
    simp only [List.mem_append, or_assoc] at ha
    rcases ha with ha | ha | ha | ha | ha | ha | ha | ha
    · exact absurd hcode (evolveDoors_no_maint _ _ _ _ a ha)
    · exact absurd hcode (evolveBrakes_no_maint _ _ _ _ a ha)
    · exact absurd hcode (evolveHvac_no_maint _ _ _ _ a ha)
    · exact absurd hcode (evolvePowerRail_no_maint _ _ _ a ha)
    · exact absurd hcode (evolveTraction_no_maint _ _ _ _ a ha)
    · exact absurd hcode (evolveBattery_no_maint _ _ _ _ a ha)
    · exact absurd hcode (evolveCctv_no_maint _ _ _ _ a ha)
    · rw [maintenanceAlerts] at ha
      split at ha
      · assumption
      · simp at ha
  · intro h
    refine ⟨⟨"SCHEDULED_MAINTENANCE", .LOW,
      "Scheduled maintenance due (" ++
        toString (round (x.odometer - x.lastMaintenanceKm) : ℤ) ++
        " km since last service)"⟩, ?_, rfl, rfl⟩
    simp only [List.mem_append, or_assoc]
    repeat right
    rw [maintenanceAlerts]
    rw [if_pos h]
    exact List.mem_singleton_self _

/-- C6: the emitted alert list contains the LOW maintenance alert if and
only if `odometer − odometerAtLastService` exceeds 40,000, for every
component state and all draw values. -/
theorem maintenance_alert_iff (s : TrainState) (d : TickDraws) (hd : DrawsOk d) :
    ((∃ a ∈ (updateTrain s d).alerts,
        a.code = "SCHEDULED_MAINTENANCE" ∧ a.severity = .LOW) ↔
      (updateTrain s d).odometer - (updateTrain s d).lastMaintenanceKm > 40000) := by
  unfold updateTrain
  rw [applyComponents_maint_iff]
  simp

/-- Witness for C6: the base train with odometer 45000 and service counter 0
raises the LOW maintenance alert on its first tick. -/
theorem maintenance_alert_iff_witness :
    ∃ a ∈ (updateTrain { baseTrain with odometer := 45000, lastMaintenanceKm := 0 }
            quietDraws).alerts,
      a.code = "SCHEDULED_MAINTENANCE" ∧ a.severity = .LOW :=
  (maintenance_alert_iff { baseTrain with odometer := 45000, lastMaintenanceKm := 0 }
      quietDraws (by with_unfolding_all decide)).mpr
    (by with_unfolding_all decide)

-- ── C8 ──

lemma updateTrain_speed_eq (s : TrainState) (d : TickDraws) :
    (updateTrain s d).speed = (applyMotion (applyStatus s d) d).speed := by
  unfold updateTrain
  simp

lemma updateTrain_phase_eq (s : TrainState) (d : TickDraws) :
    (updateTrain s d).phase = (applyMotion (applyStatus s d) d).phase := by
  unfold updateTrain
  simp

lemma updateTrain_dwellTimer_eq (s : TrainState) (d : TickDraws) :
    (updateTrain s d).dwellTimer = (applyMotion (applyStatus s d) d).dwellTimer := by
  unfold updateTrain
  simp

lemma updateTrain_segProgress_eq (s : TrainState) (d : TickDraws) :
    (updateTrain s d).segProgress = (applyMotion (applyStatus s d) d).segProgress := by
  unfold updateTrain
  simp

/-- C8: a tick whose operational status is IN_DEPOT, MAINTENANCE or FAULT
ends with speed 0 and phase DWELL; a STANDBY tick ends with speed ≤ 15 and
phase DWELL with a fresh 8–20 dwell countdown. -/
theorem non_in_service_forces_dwell (s : TrainState) (d : TickDraws)
    (hd : DrawsOk d) :
    (((updateTrain s d).status = .IN_DEPOT ∨
      (updateTrain s d).status = .MAINTENANCE ∨
      (updateTrain s d).status = .FAULT) →
      (updateTrain s d).speed = 0 ∧ (updateTrain s d).phase = .DWELL) ∧
    ((updateTrain s d).status = .STANDBY →
      (updateTrain s d).speed ≤ 15 ∧ (updateTrain s d).phase = .DWELL ∧
      8 ≤ (updateTrain s d).dwellTimer ∧ (updateTrain s d).dwellTimer ≤ 20) := by
  obtain ⟨_, _, _, _, _, _, _, _, hsd, _⟩ := hd
  rw [updateTrain_status, updateTrain_speed_eq, updateTrain_phase_eq,
      updateTrain_dwellTimer_eq]
  constructor
  · intro h
    rcases hs1 : (applyStatus s d).status <;> rw [hs1] at h
    case IN_SERVICE => simp at h
    case STANDBY => simp at h
    all_goals simp [applyMotion, hs1]
  · intro h
    simp only [applyMotion, h]
    refine ⟨(round10_mem_0_15 (le_clamp _ (by norm_num)) (clamp_le _ _ _)).2,
      trivial, ?_, ?_⟩
    · exact le_randInt hsd.1 (by norm_num)
    · exact randInt_le hsd.1 hsd.2 (by norm_num)

/-- Witness for C8: a train forced to MAINTENANCE mid-CRUISE shows speed 0
and phase DWELL on that same tick. -/
theorem non_in_service_forces_dwell_witness :
    (updateTrain maintTrain quietDraws).speed = 0 ∧
    (updateTrain maintTrain quietDraws).phase = .DWELL :=
  (non_in_service_forces_dwell maintTrain quietDraws
      (by with_unfolding_all decide)).1
    (Or.inr (Or.inl (by with_unfolding_all decide)))

-- ── C4 ──

lemma round10_zero : round10 0 = 0 := by
  norm_num [round10]

/-- C4: a BRAKE tick on which the brake rate drives the speed to 0 arrives:
phase DWELL with a fresh 8–20 countdown, progress 0, and the stop index
advanced by `direction` — unless the incremented index leaves the route, in
which case it is clamped to the interior-most valid index and the direction
inverts. -/
theorem brake_arrival (s : TrainState) (d : TickDraws) (hd : DrawsOk d)
    (hph : s.phase = .BRAKE) (hsp : s.speed ≤ rand 9 13 d.brakeU)
    (hlen : 2 ≤ s.stations.length) (hi0 : 0 ≤ s.stationIndex)
    (hi1 : s.stationIndex < (s.stations.length : ℤ)) :
    (updateTrainSpeed s d).speed = 0 ∧
    (updateTrainSpeed s d).phase = .DWELL ∧
    (updateTrainSpeed s d).segProgress = 0 ∧
    8 ≤ (updateTrainSpeed s d).dwellTimer ∧
    (updateTrainSpeed s d).dwellTimer ≤ 20 ∧
    ((0 ≤ s.stationIndex + s.direction ∧
      s.stationIndex + s.direction < (s.stations.length : ℤ)) →
      (updateTrainSpeed s d).stationIndex = s.stationIndex + s.direction ∧
      (updateTrainSpeed s d).direction = s.direction) ∧
    ((s.stations.length : ℤ) ≤ s.stationIndex + s.direction →
      (updateTrainSpeed s d).stationIndex = (s.stations.length : ℤ) - 2 ∧
      (updateTrainSpeed s d).direction = -1) ∧
    (s.stationIndex + s.direction < 0 →
      (updateTrainSpeed s d).stationIndex = 1 ∧
      (updateTrainSpeed s d).direction = 1) := by
  obtain ⟨_, _, _, _, _, _, hdw, _⟩ := hd
  have hrate : s.speed - rand 9 13 d.brakeU ≤ 0 := by linarith
  have hsp0 : clamp (s.speed - rand 9 13 d.brakeU) 0 80 = 0 := by
    unfold clamp
    rw [max_eq_right hrate, min_eq_left (by norm_num)]
  unfold updateTrainSpeed
  rw [hph]
  dsimp only
  rw [hsp0, if_pos le_rfl]
  by_cases hge : s.stationIndex + s.direction ≥ (s.stations.length : ℤ)
  · rw [if_pos hge]
    refine ⟨round10_zero, rfl, rfl, le_randInt hdw.1 (by norm_num),
      randInt_le hdw.1 hdw.2 (by norm_num), ?_, ?_, ?_⟩
    · intro hin
      omega
    · intro _
      exact ⟨rfl, rfl⟩
    · intro hlt
      omega
  · rw [if_neg hge]
    by_cases hlt : s.stationIndex + s.direction < 0
    · rw [if_pos hlt]
      refine ⟨round10_zero, rfl, rfl, le_randInt hdw.1 (by norm_num),
        randInt_le hdw.1 hdw.2 (by norm_num), ?_, ?_, ?_⟩
      · intro hin
        omega
      · intro hge2
        omega
      · intro _
        exact ⟨rfl, rfl⟩
    · rw [if_neg hlt]
      refine ⟨round10_zero, rfl, rfl, le_randInt hdw.1 (by norm_num),
        randInt_le hdw.1 hdw.2 (by norm_num), ?_, ?_, ?_⟩
      · intro _
        exact ⟨rfl, rfl⟩
      · intro hge2
        omega
      · intro hlt2
        omega

/-- Witness for C4: the base train braking at 5 km/h between interior stops
arrives and dwells, its index advanced by its direction. -/
theorem brake_arrival_witness :
    (updateTrainSpeed brakeTrain quietDraws).speed = 0 ∧
    (updateTrainSpeed brakeTrain quietDraws).phase = .DWELL ∧
    (updateTrainSpeed brakeTrain quietDraws).segProgress = 0 ∧
    8 ≤ (updateTrainSpeed brakeTrain quietDraws).dwellTimer ∧
    (updateTrainSpeed brakeTrain quietDraws).dwellTimer ≤ 20 ∧
    ((0 ≤ brakeTrain.stationIndex + brakeTrain.direction ∧
      brakeTrain.stationIndex + brakeTrain.direction <
        (brakeTrain.stations.length : ℤ)) →
      (updateTrainSpeed brakeTrain quietDraws).stationIndex =
        brakeTrain.stationIndex + brakeTrain.direction ∧
      (updateTrainSpeed brakeTrain quietDraws).direction = brakeTrain.direction) ∧
    ((brakeTrain.stations.length : ℤ) ≤
        brakeTrain.stationIndex + brakeTrain.direction →
      (updateTrainSpeed brakeTrain quietDraws).stationIndex =
        (brakeTrain.stations.length : ℤ) - 2 ∧
      (updateTrainSpeed brakeTrain quietDraws).direction = -1) ∧
    (brakeTrain.stationIndex + brakeTrain.direction < 0 →
      (updateTrainSpeed brakeTrain quietDraws).stationIndex = 1 ∧
      (updateTrainSpeed brakeTrain quietDraws).direction = 1) :=
  brake_arrival brakeTrain quietDraws (by with_unfolding_all decide) rfl
    (by with_unfolding_all decide) (by with_unfolding_all decide)
    (by with_unfolding_all decide) (by with_unfolding_all decide)

-- ── C3 ──

/-- C3 counterexample: a reachable state (valid lazy init in BRAKE at
progress 0.9491 and speed 40, followed by three valid ticks with brake rate
9) whose segment progress is 1.0041, outside `[0, 1)`. -/
theorem segProgress_reaches_one_counterexample :
    Reachable cexOverrunState ∧ ¬ cexOverrunState.segProgress < 1 := by
  constructor
  · exact Reachable.step _ quietDraws (by with_unfolding_all decide)
      (Reachable.step _ quietDraws (by with_unfolding_all decide)
        (Reachable.step _ quietDraws (by with_unfolding_all decide)
          (Reachable.init "Sukhumvit" cexInitDraws (by with_unfolding_all decide))))
  · with_unfolding_all decide

lemma initTrainState_segProgress_nonneg (line : String) (d : InitDraws)
    (h : InitDrawsOk d) : 0 ≤ (initTrainState line d).segProgress := by
  obtain ⟨_, _, _, _, _, _, _, _, hseg⟩ := h
  have hr : ∀ c : ℚ, 0.05 ≤ c → 0 ≤ rand 0.05 c d.segU := by
    intro c hc
    unfold rand
    have := mul_nonneg hseg.1 (by linarith : (0 : ℚ) ≤ c - 0.05)
    linarith
  unfold initTrainState
  dsimp only
  (repeat' split) <;> first
    | exact le_rfl
    | (refine hr _ ?_; norm_num)

lemma updateTrainSpeed_segProgress_nonneg (s : TrainState) (d : TickDraws)
    (h : 0 ≤ s.segProgress) : 0 ≤ (updateTrainSpeed s d).segProgress := by
  unfold updateTrainSpeed
  cases s.phase
  case DWELL =>
    dsimp only
    split
    · exact le_rfl
    · exact h
  case ACCEL =>
    exact add_nonneg h (div_nonneg (le_clamp _ (by norm_num)) (by norm_num))
  case CRUISE =>
    exact add_nonneg h
      (div_nonneg (le_trans (by norm_num) (le_clamp _ (by norm_num))) (by norm_num))
  case BRAKE =>
    dsimp only
    split
    · (repeat' split) <;> exact le_rfl
    · exact add_nonneg h (div_nonneg (le_max_right _ _) (by norm_num))

lemma applyMotion_segProgress_nonneg (s : TrainState) (d : TickDraws)
    (h : 0 ≤ s.segProgress) : 0 ≤ (applyMotion s d).segProgress := by
  rcases hs : s.status <;> simp only [applyMotion, hs]
  case IN_SERVICE => exact updateTrainSpeed_segProgress_nonneg s d h
  all_goals exact le_rfl

lemma applyStatus_segProgress_nonneg (s : TrainState) (d : TickDraws)
    (h : 0 ≤ s.segProgress) : 0 ≤ (applyStatus s d).segProgress := by
  unfold applyStatus
  dsimp only
  (repeat' split) <;> first | exact h | exact le_rfl

/-- Every reachable state has non-negative segment progress. -/
lemma reachable_segProgress_nonneg : ∀ s, Reachable s → 0 ≤ s.segProgress := by
  intro s hs
  induction hs with
  | init line d h => exact initTrainState_segProgress_nonneg line d h
  | step s d h hs ih =>
    show 0 ≤ (updateTrain s d).segProgress
    unfold updateTrain
    simp only [applyComponents_segProgress, applyOdometer_segProgress]
    exact applyMotion_segProgress_nonneg _ _ (applyStatus_segProgress_nonneg _ _ ih)

/-- Dwelling states keep dwelling or reset the progress in the status step. -/
lemma applyStatus_phase_dwell (s : TrainState) (d : TickDraws)
    (h : s.phase = .DWELL) : (applyStatus s d).phase = .DWELL := by
  unfold applyStatus
  dsimp only
  (repeat' split) <;> first | rfl | exact h

lemma updateTrainSpeed_dwell_accel (s : TrainState) (d : TickDraws)
    (h : s.phase = .DWELL) :
    (updateTrainSpeed s d).phase = .ACCEL → (updateTrainSpeed s d).segProgress = 0 := by
  unfold updateTrainSpeed
  rw [h]
  dsimp only
  split
  · intro _
    rfl
  · intro hc
    simp at hc

lemma applyMotion_dwell_accel (s : TrainState) (d : TickDraws)
    (h : s.phase = .DWELL) :
    (applyMotion s d).phase = .ACCEL → (applyMotion s d).segProgress = 0 := by
  rcases hs : s.status <;> simp only [applyMotion, hs]
  case IN_SERVICE => exact updateTrainSpeed_dwell_accel s d h
  all_goals intro hc; simp at hc

/-- A status step that enters service from outside restarts dwelling with
zero progress. -/
lemma applyStatus_enter_service (s : TrainState) (d : TickDraws)
    (h : s.status ≠ .IN_SERVICE)
    (h2 : (applyStatus s d).status = .IN_SERVICE) :
    (applyStatus s d).phase = .DWELL ∧ (applyStatus s d).segProgress = 0 := by
  by_cases hroll : d.statusRoll < 0.03
  · by_cases hst : pickStatus d.statusPickU = Status.IN_SERVICE
    · unfold applyStatus
      rw [if_pos hroll]
      dsimp only
      rw [if_neg (not_not_intro hst), if_pos ⟨hst, h⟩]
      exact ⟨rfl, rfl⟩
    · unfold applyStatus at h2
      rw [if_pos hroll] at h2
      dsimp only at h2
      rw [if_pos hst, if_neg (fun hc => hst hc.1)] at h2
      exact absurd h2 hst
  · unfold applyStatus at h2
    rw [if_neg hroll] at h2
    exact absurd h2 h

lemma updateTrainSpeed_dwell_seg (s : TrainState) (d : TickDraws)
    (h : s.phase = .DWELL) (hseg : s.segProgress = 0) :
    (updateTrainSpeed s d).segProgress = 0 := by
  unfold updateTrainSpeed
  rw [h]
  dsimp only
  split
  · rfl
  · exact hseg

/-- C3 (amended): on every reachable state `segmentProgress` is
non-negative (during BRAKE it can reach or exceed 1), and it is exactly 0
immediately after a DWELL→ACCEL transition and immediately after a
transition of the operational status into IN_SERVICE. -/
theorem segProgress_nonneg_and_reset :
    (∀ s, Reachable s → 0 ≤ s.segProgress) ∧
    (∀ (s : TrainState) (d : TickDraws), s.phase = .DWELL →
      (updateTrain s d).phase = .ACCEL → (updateTrain s d).segProgress = 0) ∧
    (∀ (s : TrainState) (d : TickDraws), s.status ≠ .IN_SERVICE →
      (updateTrain s d).status = .IN_SERVICE →
      (updateTrain s d).segProgress = 0) := by
  refine ⟨reachable_segProgress_nonneg, ?_, ?_⟩
  · intro s d hph hacc
    rw [updateTrain_phase_eq] at hacc
    rw [updateTrain_segProgress_eq]
    exact applyMotion_dwell_accel _ d (applyStatus_phase_dwell s d hph) hacc
  · intro s d h hin
    rw [updateTrain_status] at hin
    obtain ⟨hph, hseg⟩ := applyStatus_enter_service s d h hin
    rw [updateTrain_segProgress_eq]
    rw [show applyMotion (applyStatus s d) d = updateTrainSpeed (applyStatus s d) d
      from by simp only [applyMotion, hin]]
    exact updateTrainSpeed_dwell_seg _ d hph hseg

/-- Witness for C3 (amended): the braking init state of the counterexample
is reachable and has non-negative progress. -/
theorem segProgress_nonneg_and_reset_witness :
    0 ≤ (initTrainState "Sukhumvit" cexInitDraws).segProgress :=
  segProgress_nonneg_and_reset.1 _
    (Reachable.init "Sukhumvit" cexInitDraws (by with_unfolding_all decide))

end RailStream
